import Mathlib

/-!
Verification of the task/project service layer of the AI-driven
project-management API.  The definitions below are a shallow embedding of
`app/services/task_service.py`, `app/services/project_service.py`,
`app/schemas/task.py` and `app/repositories/base_repository.py`:
pure Lean functions mirror the Python service methods, with the loaded
ORM entities passed in explicitly, exceptions modelled by `Except`/error
values, `datetime.utcnow()` passed in as a `now` parameter, and Python
float fields modelled as rationals (only comparisons and copies are
performed on them).  Python truthiness tests (`if not task.actual_hours`,
`if description`, ...) are modelled explicitly by `truthy` helpers.
-/

namespace PMAPI

/-- Task status enum (`app/models/task.py`, `TaskStatus`). -/
inductive TaskStatus where
  | todo
  | in_progress
  | in_review
  | done
  | blocked
  | cancelled
deriving DecidableEq

/-- Task priority enum (`app/models/task.py`, `TaskPriority`). -/
inductive TaskPriority where
  | low
  | medium
  | high
  | critical
deriving DecidableEq

/-- Project status enum (`app/models/project.py`, `ProjectStatus`). -/
inductive ProjectStatus where
  | planning
  | active
  | on_hold
  | completed
  | cancelled
deriving DecidableEq

/-- A task row as loaded with its relations (`app/models/task.py`, `Task`).
`project_owner_id` is `task.project.owner_id` of the joined project row.
Datetimes are abstract instants (`Nat`); float columns are rationals. -/
structure Task where
  id : Nat
  title : String
  description : Option String
  status : TaskStatus
  priority : TaskPriority
  project_id : Nat
  assignee_id : Option Nat
  created_by : Nat
  estimated_hours : Option ℚ
  actual_hours : Option ℚ
  complexity_score : Option Nat
  due_date : Option Nat
  completed_at : Option Nat
  project_owner_id : Nat
deriving DecidableEq

/-- The fields of the `TaskUpdate` pydantic schema (`app/schemas/task.py`). -/
inductive TaskField where
  | title
  | description
  | status
  | priority
  | assignee_id
  | estimated_hours
  | actual_hours
  | due_date
deriving DecidableEq

/-- Errors raised by the services (`app/utils/exceptions.py`), together with
the structured `details` payload of each raise site that the claims talk
about.  `notFoundMissing` is `NotFoundException` with `missing_ids`;
`validationFailed` is `ValidationException` with its `field`;
`forbidden` / `forbiddenFields` / `forbiddenTasks` are `ForbiddenException`
(plain, with `forbidden_fields`, with `unauthorized_task_ids`);
`businessRule` is `BusinessLogicException` with its message, and
`invalidTransition` is the `BusinessLogicException` whose details carry
`current_status`, `requested_status` and `valid_transitions`. -/
inductive Err where
  | notFoundMissing (missing_ids : List Nat)
  | validationFailed (field : String)
  | forbidden
  | forbiddenFields (fields : List TaskField)
  | forbiddenTasks (unauthorized_task_ids : List Nat)
  | businessRule (message : String)
  | invalidTransition (current_status requested_status : TaskStatus)
      (valid : List TaskStatus)
deriving DecidableEq

/-- Python truthiness of an optional float column (`None` and `0` are falsy). -/
def truthyQ : Option ℚ → Bool
  | none => false
  | some x => x != 0

/-- Python truthiness of an optional string (`None` and `""` are falsy). -/
def truthyStr : Option String → Bool
  | none => false
  | some s => s != ""

/-- `TaskStatusUpdate` schema (`app/schemas/task.py`). -/
structure TaskStatusUpdate where
  status : TaskStatus
  notes : Option String
  actual_hours : Option ℚ
deriving DecidableEq

/-- The `valid_transitions` table of `TaskService.update_task_status`
(`app/services/task_service.py`), in source order. -/
def valid_transitions : TaskStatus → List TaskStatus
  | .todo => [.in_progress, .cancelled]
  | .in_progress => [.in_review, .blocked, .done, .cancelled]
  | .in_review => [.done, .in_progress, .cancelled]
  | .blocked => [.in_progress, .cancelled]
  | .done => [.in_progress]
  | .cancelled => [.todo]

/-- `TaskService.update_task_status` (`app/services/task_service.py`), after
the task has been loaded with its relations.  Raises become `.error`; the
final repository write applies the accumulated `update_data` dict
(`status`, plus `completed_at`, and `actual_hours` when supplied truthy,
on completion). -/
def update_task_status (task : Task) (status_data : TaskStatusUpdate)
    (current_user_id : Nat) (now : Nat) : Except Err Task :=
  let is_assignee := task.assignee_id = some current_user_id
  let is_creator := task.created_by = current_user_id
  let is_project_owner := task.project_owner_id = current_user_id
  if ¬(is_assignee ∨ is_creator ∨ is_project_owner) then
    .error .forbidden
  else
    let old_status := task.status
    let new_status := status_data.status
    if new_status ∉ valid_transitions old_status then
      .error (.invalidTransition old_status new_status
        (valid_transitions old_status))
    else if new_status = .done ∧ ¬truthyQ task.actual_hours
        ∧ ¬truthyQ status_data.actual_hours then
      .error (.validationFailed "actual_hours")
    else if new_status = .blocked ∧ ¬truthyStr status_data.notes then
      .error (.validationFailed "notes")
    else if new_status = .in_progress ∧ old_status = .todo
        ∧ task.assignee_id = none then
      .error (.businessRule "Cannot start unassigned task")
    else
      .ok { task with
        status := new_status
        completed_at :=
          if new_status = .done then some now else task.completed_at
        actual_hours :=
          if new_status = .done ∧ truthyQ status_data.actual_hours then
            status_data.actual_hours
          else task.actual_hours }

/-- The `technical_keywords` list of
`TaskService._calculate_complexity_score` (`app/services/task_service.py`). -/
def technical_keywords : List String :=
  ["database", "api", "migration", "integration",
   "architecture", "security", "performance", "algorithm"]

/-- Python `keyword in description.lower()`: substring containment of the
keyword in the lower-cased description. -/
def containsKeyword (description : String) (kw : String) : Bool :=
  decide (kw.toList <:+: (description.toList.map Char.toLower))

/-- `TaskService._calculate_complexity_score`
(`app/services/task_service.py`): base 5, overridden by the
estimated-hours bucket when `estimated_hours` is truthy, adjusted by the
description bonuses when `description` is truthy, clamped to `[1, 10]`. -/
def calculate_complexity_score (title : String) (description : Option String)
    (estimated_hours : Option ℚ) : Nat :=
  let score := 5
  let score :=
    match estimated_hours with
    | none => score
    | some h =>
      if h = 0 then score
      else if h ≤ 2 then 2
      else if h ≤ 8 then 4
      else if h ≤ 24 then 6
      else if h ≤ 80 then 8
      else 10
  let score :=
    match description with
    | none => score
    | some d =>
      if d = "" then score
      else
        let score := if d.length > 500 then min 10 (score + 1) else score
        let keyword_count :=
          (technical_keywords.filter (fun kw => containsKeyword d kw)).length
        min 10 (score + keyword_count)
  max 1 (min 10 score)

/-- `TaskUpdate` schema (`app/schemas/task.py`).  The outer `Option` is
pydantic set-ness (`model_dump` with unset fields excluded); the inner
`Option` is the nullable value itself, since every field is `Optional`. -/
structure TaskUpdate where
  title : Option (Option String)
  description : Option (Option String)
  status : Option (Option TaskStatus)
  priority : Option (Option TaskPriority)
  assignee_id : Option (Option Nat)
  estimated_hours : Option (Option ℚ)
  actual_hours : Option (Option ℚ)
  due_date : Option (Option Nat)
deriving DecidableEq

/-- The `TaskUpdate` payload whose only set field is `status`. -/
def statusOnlyUpdate (s : TaskStatus) : TaskUpdate :=
  { title := none, description := none, status := some (some s),
    priority := none, assignee_id := none, estimated_hours := none,
    actual_hours := none, due_date := none }

/-- Whether a field was provided in the payload (pydantic set-ness). -/
def TaskUpdate.isSet (u : TaskUpdate) : TaskField → Bool
  | .title => u.title.isSome
  | .description => u.description.isSome
  | .status => u.status.isSome
  | .priority => u.priority.isSome
  | .assignee_id => u.assignee_id.isSome
  | .estimated_hours => u.estimated_hours.isSome
  | .actual_hours => u.actual_hours.isSome
  | .due_date => u.due_date.isSome

/-- Keys of `task_data.model_dump(exclude_unset=True)`, in field order. -/
def TaskUpdate.keys (u : TaskUpdate) : List TaskField :=
  [TaskField.title, TaskField.description, TaskField.status,
   TaskField.priority, TaskField.assignee_id, TaskField.estimated_hours,
   TaskField.actual_hours, TaskField.due_date].filter u.isSet

/-- The `allowed_fields` set of `TaskService.update_task` for a caller who
is only the assignee (`app/services/task_service.py`). -/
def allowed_assignee_fields : List TaskField :=
  [TaskField.status, TaskField.actual_hours, TaskField.description]

/-- `TaskUpdate.validate_status_transition` (`app/schemas/task.py`): the
pydantic validator on `status` returns its argument unchanged. -/
def validate_status_transition (v : Option TaskStatus) : Option TaskStatus := v

/-- A user row as seen through `UserRepository.get_by_id`
(`app/models/user.py`): only the fields the task service consults. -/
structure UserRec where
  id : Nat
  is_active : Bool
deriving DecidableEq

/-- `BaseRepository.update` applied to a `TaskUpdate` dump
(`app/repositories/base_repository.py`): each present key whose value is
not `None` is written onto the row; `None` values are skipped
(`exclude_unset=True` default). -/
def applyTaskUpdate (task : Task) (u : TaskUpdate) : Task :=
  { task with
    title := match u.title with
      | some (some v) => v
      | _ => task.title
    description := match u.description with
      | some (some v) => some v
      | _ => task.description
    status := match (u.status.map validate_status_transition) with
      | some (some v) => v
      | _ => task.status
    priority := match u.priority with
      | some (some v) => v
      | _ => task.priority
    assignee_id := match u.assignee_id with
      | some (some v) => some v
      | _ => task.assignee_id
    estimated_hours := match u.estimated_hours with
      | some (some v) => some v
      | _ => task.estimated_hours
    actual_hours := match u.actual_hours with
      | some (some v) => some v
      | _ => task.actual_hours
    due_date := match u.due_date with
      | some (some v) => some v
      | _ => task.due_date }

/-- The assignee-change validation of `TaskService.update_task`
(`app/services/task_service.py`): when the payload sets a truthy
`assignee_id`, that user must exist and be active. -/
def assignee_change_check (task_data : TaskUpdate) (users : List UserRec) :
    Option Err :=
  match task_data.assignee_id with
  | some (some n) =>
    if n ≠ 0 then
      match users.find? (fun u => u.id == n) with
      | some u =>
        if u.is_active then none
        else some (.validationFailed "assignee_id")
      | none => some (.validationFailed "assignee_id")
    else none
  | _ => none

/-- The `actual_hours` validation of `TaskService.update_task`
(`app/services/task_service.py`): a truthy negative value is rejected. -/
def actual_hours_check (task_data : TaskUpdate) : Option Err :=
  match task_data.actual_hours with
  | some (some v) =>
    if v ≠ 0 ∧ v < 0 then some (.validationFailed "actual_hours")
    else none
  | _ => none

/-- With no assignee field set, the assignee validation passes. -/
theorem assignee_change_check_unset (task_data : TaskUpdate)
    (users : List UserRec) (h : task_data.assignee_id = none) :
    assignee_change_check task_data users = none := by
  unfold assignee_change_check
  rw [h]

/-- With no `actual_hours` field set, the hours validation passes. -/
theorem actual_hours_check_unset (task_data : TaskUpdate)
    (h : task_data.actual_hours = none) :
    actual_hours_check task_data = none := by
  unfold actual_hours_check
  rw [h]

/-- An explicitly null `actual_hours` passes the hours validation. -/
theorem actual_hours_check_null (task_data : TaskUpdate)
    (h : task_data.actual_hours = some none) :
    actual_hours_check task_data = none := by
  unfold actual_hours_check
  rw [h]

/-- A non-negative supplied `actual_hours` passes the hours validation. -/
theorem actual_hours_check_nonneg (task_data : TaskUpdate) (v : ℚ)
    (h : task_data.actual_hours = some (some v)) (hv : 0 ≤ v) :
    actual_hours_check task_data = none := by
  unfold actual_hours_check
  rw [h]
  exact if_neg (fun hcon => absurd hcon.2 (not_lt.mpr hv))

/-- `TaskService.update_task` (`app/services/task_service.py`), after the
task has been loaded with its relations.  `users` stands for the user
repository consulted when validating a changed assignee. -/
def update_task (task : Task) (task_data : TaskUpdate)
    (current_user_id : Nat) (users : List UserRec) : Except Err Task :=
  let is_creator := task.created_by = current_user_id
  let is_assignee := task.assignee_id = some current_user_id
  let is_project_owner := task.project_owner_id = current_user_id
  if ¬(is_creator ∨ is_assignee ∨ is_project_owner) then
    .error .forbidden
  else
    let forbidden_fields :=
      task_data.keys.filter (fun f => f ∉ allowed_assignee_fields)
    if is_assignee ∧ ¬(is_creator ∨ is_project_owner)
        ∧ forbidden_fields ≠ [] then
      .error (.forbiddenFields forbidden_fields)
    else
      match assignee_change_check task_data users with
      | some e => .error e
      | none =>
        match actual_hours_check task_data with
        | some e => .error e
        | none =>
          let updated := applyTaskUpdate task task_data
          if TaskField.title ∈ task_data.keys
              ∨ TaskField.description ∈ task_data.keys
              ∨ TaskField.estimated_hours ∈ task_data.keys then
            .ok { updated with
              complexity_score := some (calculate_complexity_score
                updated.title updated.description updated.estimated_hours) }
          else
            .ok updated

/-- The per-task authorization predicate of `TaskService.bulk_update_status`
(`app/services/task_service.py`). -/
def is_bulk_authorized (t : Task) (current_user_id : Nat) : Bool :=
  t.created_by == current_user_id ||
  t.assignee_id == some current_user_id ||
  t.project_owner_id == current_user_id

/-- `BaseRepository.get_by_ids` (`app/repositories/base_repository.py`):
the rows whose id is in the requested list, in store order. -/
def get_by_ids (db : List Task) (ids : List Nat) : List Task :=
  db.filter (fun t => ids.contains t.id)

/-- `TaskService.bulk_update_status` (`app/services/task_service.py`) as a
state transformer on the task store: the pair is the store after the call
together with the raised error, if any.  Both raise sites occur before the
repository write, so they leave the store untouched.  The write itself,
`TaskRepository.bulk_update_status`, is not present in the repository
sources; modelled from the spec: a single all-or-nothing batch update that
sets the status of every referenced row. -/
def bulk_update_status (db : List Task) (task_ids : List Nat)
    (new_status : TaskStatus) (current_user_id : Nat) :
    List Task × Option Err :=
  let tasks := get_by_ids db task_ids
  if tasks.length ≠ task_ids.length then
    let found_ids := tasks.map Task.id
    let missing_ids :=
      (task_ids.filter (fun i => ¬found_ids.contains i)).dedup
    (db, some (.notFoundMissing missing_ids))
  else
    let unauthorized_tasks :=
      (tasks.filter
        (fun t => ¬is_bulk_authorized t current_user_id)).map Task.id
    if unauthorized_tasks ≠ [] then
      (db, some (.forbiddenTasks unauthorized_tasks))
    else
      (db.map (fun t =>
        if task_ids.contains t.id then { t with status := new_status }
        else t), none)

/-- `TaskService.delete_task` (`app/services/task_service.py`), after the
task has been loaded (so the repository delete returns `true`). -/
def delete_task (task : Task) (current_user_id : Nat) : Except Err Bool :=
  let is_creator := task.created_by = current_user_id
  let is_project_owner := task.project_owner_id = current_user_id
  if ¬(is_creator ∨ is_project_owner) then
    .error .forbidden
  else if task.status = .done then
    .error (.businessRule "Cannot delete completed tasks")
  else
    .ok true

/-- A project row as loaded with owner/tasks
(`app/models/project.py`, `Project`). -/
structure Project where
  id : Nat
  name : String
  description : Option String
  status : ProjectStatus
  priority : TaskPriority
  start_date : Option Nat
  end_date : Option Nat
  owner_id : Nat
  tasks : List Task
deriving DecidableEq

/-- `ProjectUpdate` schema (`app/schemas/project.py`); outer `Option` is
pydantic set-ness, inner `Option` the nullable value. -/
structure ProjectUpdate where
  name : Option (Option String)
  description : Option (Option String)
  status : Option (Option ProjectStatus)
  priority : Option (Option TaskPriority)
  start_date : Option (Option Nat)
  end_date : Option (Option Nat)
deriving DecidableEq

/-- `ProjectStatusUpdate` schema (`app/schemas/project.py`). -/
structure ProjectStatusUpdate where
  status : ProjectStatus
  notes : Option String
deriving DecidableEq

/-- `BaseRepository.update` applied to a `ProjectUpdate` dump: present keys
with non-`None` values are written, `None` values skipped. -/
def applyProjectUpdate (project : Project) (u : ProjectUpdate) : Project :=
  { project with
    name := match u.name with
      | some (some v) => v
      | _ => project.name
    description := match u.description with
      | some (some v) => some v
      | _ => project.description
    status := match u.status with
      | some (some v) => v
      | _ => project.status
    priority := match u.priority with
      | some (some v) => v
      | _ => project.priority
    start_date := match u.start_date with
      | some (some v) => some v
      | _ => project.start_date
    end_date := match u.end_date with
      | some (some v) => some v
      | _ => project.end_date }

/-- `ProjectService.update_project` (`app/services/project_service.py`),
after the project has been loaded: owner-only authorization, then the
`status` key is deleted from the dump before the write. -/
def update_project (project : Project) (project_data : ProjectUpdate)
    (current_user_id : Nat) : Except Err Project :=
  if project.owner_id ≠ current_user_id then
    .error .forbidden
  else
    .ok (applyProjectUpdate project { project_data with status := none })

/-- `ProjectService.update_project_status`
(`app/services/project_service.py`), after the project has been loaded
with its tasks. -/
def update_project_status (project : Project)
    (status_data : ProjectStatusUpdate) (current_user_id : Nat) :
    Except Err Project :=
  if project.owner_id ≠ current_user_id then
    .error .forbidden
  else
    let new_status := status_data.status
    let current_status := project.status
    if current_status = .planning ∧ new_status = .active
        ∧ project.start_date = none then
      .error (.businessRule "Cannot activate project without start date")
    else
      let incomplete_tasks :=
        (project.tasks.filter (fun t =>
          ¬(t.status = .done ∨ t.status = .cancelled))).length
      if current_status = .active ∧ new_status = .completed
          ∧ incomplete_tasks > 0 then
        .error (.businessRule "Cannot complete project with incomplete tasks")
      else if new_status = .on_hold ∧ ¬truthyStr status_data.notes then
        .error (.validationFailed "notes")
      else
        .ok { project with status := new_status }

/-- `ProjectService.delete_project` (`app/services/project_service.py`),
after the project has been loaded with its tasks. -/
def delete_project (project : Project) (current_user_id : Nat)
    (force : Bool) : Except Err Bool :=
  if project.owner_id ≠ current_user_id then
    .error .forbidden
  else if project.tasks ≠ [] ∧ force = false then
    .error (.businessRule "Cannot delete project with tasks")
  else
    .ok true

/-- An authenticated principal as supplied by the dependency layer
(`app/models/user.py`; endpoints pass `current_user.id` to the services). -/
structure Principal where
  id : Nat
  is_active : Bool
  is_superuser : Bool
deriving DecidableEq

/-- Success of a task-service call: some updated task row is returned. -/
def succeedsT (r : Except Err Task) : Prop := ∃ t, r = .ok t

/-- The call returned an updated row whose status is `s`. -/
def updatesStatusTo (r : Except Err Task) (s : TaskStatus) : Prop :=
  ∃ t, r = .ok t ∧ t.status = s

/-! Concrete fixtures used by counterexamples and witnesses. -/

/-- Fixture: an in-progress task assigned to user 2, created and owned by
user 3, with no recorded hours. -/
def taskA : Task :=
  { id := 1, title := "write docs", description := none,
    status := .in_progress, priority := .medium, project_id := 1,
    assignee_id := some 2, created_by := 3, estimated_hours := none,
    actual_hours := none, complexity_score := none, due_date := none,
    completed_at := none, project_owner_id := 3 }

/-- Fixture: an in-progress task whose stored `actual_hours` is `0`. -/
def taskZero : Task :=
  { taskA with id := 2, actual_hours := some 0 }

/-- Fixture: a completed task (status `done`, `completed_at` recorded),
created by its assignee, user 2. -/
def taskDone : Task :=
  { id := 3, title := "ship feature", description := none,
    status := .done, priority := .high, project_id := 1,
    assignee_id := some 2, created_by := 2, estimated_hours := some 4,
    actual_hours := some 3, complexity_score := some 4, due_date := none,
    completed_at := some 5, project_owner_id := 4 }

/-- Fixture: `taskDone` after the reopening write
(`update_data` of the service holds only the new status). -/
def taskReopened : Task :=
  { taskDone with status := .in_progress }

/-- Fixture: a reopening request `done → in_progress`. -/
def sdReopen : TaskStatusUpdate :=
  { status := .in_progress, notes := none, actual_hours := none }

/-- Fixture: a task whose caller (user 5) is only the assignee. -/
def taskC : Task :=
  { taskA with
    id := 4, assignee_id := some 5, created_by := 1,
    project_owner_id := 1 }

/-- Fixture: a one-row task store. -/
def dbW : List Task := [taskA]

/-- Fixture: a planning project owned by user 1 with no start date. -/
def projX : Project :=
  { id := 1, name := "apollo", description := none, status := .planning,
    priority := .medium, start_date := none, end_date := none,
    owner_id := 1, tasks := [] }

/-- Fixture: a `ProjectUpdate` payload with no field set. -/
def emptyProjectUpdate : ProjectUpdate :=
  { name := none, description := none, status := none, priority := none,
    start_date := none, end_date := none }

/-- Fixture: a superuser principal who does not own `projX`. -/
def superUser : Principal :=
  { id := 2, is_active := true, is_superuser := true }

/-! Claim theorems. -/

/-- C1: counterexample — for an authorized caller, `in_progress → done` is
in the edge table, yet the status update fails (with the missing
`actual_hours` validation error), so the status change does not succeed
if and only if the requested status is in the allowed-set. -/
theorem C1_counterexample :
    TaskStatus.done ∈ valid_transitions TaskStatus.in_progress ∧
    taskA.assignee_id = some 2 ∧
    update_task_status taskA
        { status := .done, notes := none, actual_hours := none } 2 0 =
      .error (.validationFailed "actual_hours") := by
  refine ⟨by decide, rfl, rfl⟩

/-- C1 (amended): for an authorized caller, any requested status outside
the allowed-set of the current status fails with a business-rule error
whose details name the current status, the requested status and the valid
target list; a requested status inside the allowed-set succeeds if and
only if the side conditions of the target state also hold (truthy
`actual_hours` for `done`, truthy `notes` for `blocked`, an assignee for
`todo → in_progress`). -/
theorem C1_transitions (task : Task) (sd : TaskStatusUpdate)
    (uid now : Nat)
    (hauth : task.assignee_id = some uid ∨ task.created_by = uid ∨
      task.project_owner_id = uid) :
    (sd.status ∉ valid_transitions task.status →
      update_task_status task sd uid now =
        .error (.invalidTransition task.status sd.status
          (valid_transitions task.status))) ∧
    (succeedsT (update_task_status task sd uid now) ↔
      (sd.status ∈ valid_transitions task.status ∧
       (sd.status = .done →
         truthyQ task.actual_hours = true ∨
         truthyQ sd.actual_hours = true) ∧
       (sd.status = .blocked → truthyStr sd.notes = true) ∧
       (sd.status = .in_progress ∧ task.status = .todo →
         task.assignee_id ≠ none))) := by
  have h1 : ¬¬(task.assignee_id = some uid ∨ task.created_by = uid ∨
      task.project_owner_id = uid) := not_not_intro hauth
  simp only [update_task_status, succeedsT]
  rw [if_neg h1]
  by_cases h2 : sd.status ∈ valid_transitions task.status
  · rw [if_neg (not_not_intro h2)]
    by_cases h3 : sd.status = TaskStatus.done ∧
        ¬truthyQ task.actual_hours = true ∧
        ¬truthyQ sd.actual_hours = true
    · rw [if_pos h3]
      refine ⟨fun hn => absurd h2 hn, ?_⟩
      constructor
      · rintro ⟨t, ht⟩
        exact Except.noConfusion ht
      · rintro ⟨-, hdone, -, -⟩
        obtain ⟨hst, hta, hsa⟩ := h3
        rcases hdone hst with h | h
        · exact (hta h).elim
        · exact (hsa h).elim
    · rw [if_neg h3]
      by_cases h4 : sd.status = TaskStatus.blocked ∧
          ¬truthyStr sd.notes = true
      · rw [if_pos h4]
        refine ⟨fun hn => absurd h2 hn, ?_⟩
        constructor
        · rintro ⟨t, ht⟩
          exact Except.noConfusion ht
        · rintro ⟨-, -, hblocked, -⟩
          exact (h4.2 (hblocked h4.1)).elim
      · rw [if_neg h4]
        by_cases h5 : sd.status = TaskStatus.in_progress ∧
            task.status = TaskStatus.todo ∧ task.assignee_id = none
        · rw [if_pos h5]
          refine ⟨fun hn => absurd h2 hn, ?_⟩
          constructor
          · rintro ⟨t, ht⟩
            exact Except.noConfusion ht
          · rintro ⟨-, -, -, hstart⟩
            exact (hstart ⟨h5.1, h5.2.1⟩ h5.2.2).elim
        · rw [if_neg h5]
          refine ⟨fun hn => absurd h2 hn, ?_⟩
          constructor
          · intro _
            refine ⟨h2, ?_, ?_, ?_⟩
            · intro hst
              by_contra hc
              push_neg at hc
              exact h3 ⟨hst, hc.1, hc.2⟩
            · intro hst
              by_contra hc
              exact h4 ⟨hst, hc⟩
            · rintro ⟨hst, hto⟩ hun
              exact h5 ⟨hst, hto, hun⟩
          · intro _
            exact ⟨_, rfl⟩
  · rw [if_pos h2]
    refine ⟨fun _ => rfl, ?_⟩
    constructor
    · rintro ⟨t, ht⟩
      exact Except.noConfusion ht
    · rintro ⟨hmem, -⟩
      exact absurd hmem h2

/-- C1 witness: the characterization applied at a concrete authorized
completion request that satisfies the side conditions. -/
theorem C1_transitions_witness :
    succeedsT (update_task_status taskA
      { status := .done, notes := none, actual_hours := some 3 } 2 0) :=
  (C1_transitions taskA
      { status := .done, notes := none, actual_hours := some 3 } 2 0
      (Or.inl rfl)).2.mpr (by decide)

/-- Helper: for an authorized caller and an edge-valid completion request,
the update fails with the `actual_hours` validation error whenever
neither the stored nor the supplied hours are truthy. -/
theorem done_check_fails (task : Task) (sd : TaskStatusUpdate)
    (uid now : Nat)
    (hauth : task.assignee_id = some uid ∨ task.created_by = uid ∨
      task.project_owner_id = uid)
    (hdone : sd.status = TaskStatus.done)
    (hedge : TaskStatus.done ∈ valid_transitions task.status)
    (hta : truthyQ task.actual_hours = false)
    (hsa : truthyQ sd.actual_hours = false) :
    update_task_status task sd uid now =
      .error (.validationFailed "actual_hours") := by
  have h1 : ¬¬(task.assignee_id = some uid ∨ task.created_by = uid ∨
      task.project_owner_id = uid) := not_not_intro hauth
  simp only [update_task_status]
  rw [if_neg h1, if_neg (not_not_intro (hdone ▸ hedge)),
    if_pos ⟨hdone, by simp [hta], by simp [hsa]⟩]

/-- C4: counterexample — the stored `actual_hours` of the task is present
(`some 0`), the caller is the authorized assignee and `in_progress → done`
is an edge-table transition, yet the completion fails with the
ValidationFailed error: presence of the stored value is not enough. -/
theorem C4_counterexample :
    taskZero.actual_hours = some 0 ∧
    TaskStatus.done ∈ valid_transitions taskZero.status ∧
    taskZero.assignee_id = some 2 ∧
    update_task_status taskZero
        { status := .done, notes := none, actual_hours := none } 2 0 =
      .error (.validationFailed "actual_hours") := by
  refine ⟨rfl, by decide, rfl, rfl⟩

/-- C4 (amended): for an authorized caller completing a task over a valid
edge, the update fails with the ValidationFailed error on `actual_hours`
precisely when neither the stored nor the supplied `actual_hours` is
truthy (the code tests Python truthiness, so a value of `0` counts as
absent); when either is truthy the transition succeeds, sets
`completed_at` to the current time, and stores the supplied
`actual_hours` exactly when a truthy one was given. -/
theorem C4_done_requires_truthy_hours (task : Task) (sd : TaskStatusUpdate)
    (uid now : Nat)
    (hauth : task.assignee_id = some uid ∨ task.created_by = uid ∨
      task.project_owner_id = uid)
    (hdone : sd.status = TaskStatus.done)
    (hedge : TaskStatus.done ∈ valid_transitions task.status) :
    (truthyQ task.actual_hours = false ∧ truthyQ sd.actual_hours = false →
      update_task_status task sd uid now =
        .error (.validationFailed "actual_hours")) ∧
    (truthyQ task.actual_hours = true ∨ truthyQ sd.actual_hours = true →
      update_task_status task sd uid now =
        .ok { task with
          status := TaskStatus.done
          completed_at := some now
          actual_hours :=
            if truthyQ sd.actual_hours then sd.actual_hours
            else task.actual_hours }) := by
  have h1 : ¬¬(task.assignee_id = some uid ∨ task.created_by = uid ∨
      task.project_owner_id = uid) := not_not_intro hauth
  constructor
  · intro h
    exact done_check_fails task sd uid now hauth hdone hedge h.1 h.2
  · intro h
    have hcheck : ¬(sd.status = TaskStatus.done ∧
        ¬truthyQ task.actual_hours = true ∧
        ¬truthyQ sd.actual_hours = true) := by
      rintro ⟨-, hta, hsa⟩
      rcases h with h | h
      · exact hta h
      · exact hsa h
    have hblocked : ¬(sd.status = TaskStatus.blocked ∧
        ¬truthyStr sd.notes = true) := by
      rintro ⟨hb, -⟩
      rw [hdone] at hb
      exact TaskStatus.noConfusion hb
    have hstart : ¬(sd.status = TaskStatus.in_progress ∧
        task.status = TaskStatus.todo ∧ task.assignee_id = none) := by
      rintro ⟨hb, -⟩
      rw [hdone] at hb
      exact TaskStatus.noConfusion hb
    simp only [update_task_status]
    rw [if_neg h1, if_neg (not_not_intro (hdone ▸ hedge)),
      if_neg hcheck, if_neg hblocked, if_neg hstart]
    simp [hdone]

/-- C4 witness: a concrete completion with no hours anywhere fails. -/
theorem C4_done_requires_truthy_hours_witness :
    update_task_status taskA
        { status := .done, notes := none, actual_hours := none } 3 7 =
      .error (.validationFailed "actual_hours") :=
  (C4_done_requires_truthy_hours taskA
      { status := .done, notes := none, actual_hours := none } 3 7
      (Or.inr (Or.inl rfl)) rfl (by decide)).1 ⟨rfl, rfl⟩

/-- C10: a stored `actual_hours` of `0` is treated the same as an absent
one by the completion check: for an authorized caller and an edge-valid
completion request that supplies no `actual_hours` (or supplies `0`), the
update fails with the ValidationFailed error. -/
theorem C10_zero_hours_absent (task : Task) (sd : TaskStatusUpdate)
    (uid now : Nat)
    (hauth : task.assignee_id = some uid ∨ task.created_by = uid ∨
      task.project_owner_id = uid)
    (hdone : sd.status = TaskStatus.done)
    (hedge : TaskStatus.done ∈ valid_transitions task.status)
    (hstored : task.actual_hours = some 0)
    (hsup : sd.actual_hours = none ∨ sd.actual_hours = some 0) :
    update_task_status task sd uid now =
      .error (.validationFailed "actual_hours") := by
  have hta : truthyQ task.actual_hours = false := by
    rw [hstored]
    simp [truthyQ]
  have hsa : truthyQ sd.actual_hours = false := by
    rcases hsup with h | h <;> rw [h] <;> simp [truthyQ]
  exact done_check_fails task sd uid now hauth hdone hedge hta hsa

/-- C10 witness: the completion of the zero-hours task fails concretely. -/
theorem C10_zero_hours_absent_witness :
    update_task_status taskZero
        { status := .done, notes := none, actual_hours := some 0 } 2 1 =
      .error (.validationFailed "actual_hours") :=
  C10_zero_hours_absent taskZero
    { status := .done, notes := none, actual_hours := some 0 } 2 1
    (Or.inl rfl) rfl (by decide) rfl (Or.inr rfl)

/-- C5: counterexample — reopening a completed task (`done → in_progress`)
succeeds but returns the task with `completed_at` still set to its old
value: the reopening path never clears the completion stamp, so a task
that is not in `done` can carry a non-`none` `completed_at`. -/
theorem C5_counterexample :
    taskDone.status = TaskStatus.done ∧
    taskDone.completed_at = some 5 ∧
    update_task_status taskDone sdReopen 2 9 = .ok taskReopened ∧
    taskReopened.status = TaskStatus.in_progress ∧
    taskReopened.completed_at = some 5 := by
  exact ⟨rfl, rfl, rfl, rfl, rfl⟩

/-- C5 (amended): `completed_at` is written (to the current time) exactly
by a successful transition into `done`; every other successful status
update — the reopening `done → in_progress` included — leaves
`completed_at` unchanged rather than clearing it. -/
theorem C5_completed_at (task : Task) (sd : TaskStatusUpdate)
    (uid now : Nat) (t' : Task)
    (h : update_task_status task sd uid now = .ok t') :
    t'.completed_at =
      if sd.status = TaskStatus.done then some now
      else task.completed_at := by
  simp only [update_task_status] at h
  split_ifs at h
  all_goals first
    | exact Except.noConfusion h
    | (injection h with h
       subst h
       simp_all)

/-- C5 witness: the behavior theorem applied to the concrete reopening. -/
theorem C5_completed_at_witness :
    taskReopened.completed_at =
      if sdReopen.status = TaskStatus.done then some 9
      else taskDone.completed_at :=
  C5_completed_at taskDone sdReopen 2 9 taskReopened rfl

/-- C7: counterexample — deleting a completed task as a caller who is
neither the creator nor the project owner fails with the plain Forbidden
error, not with the BusinessRuleViolation, so the claimed error kind does
not hold for every caller identity. -/
theorem C7_counterexample :
    taskDone.status = TaskStatus.done ∧
    taskDone.created_by ≠ 7 ∧
    taskDone.project_owner_id ≠ 7 ∧
    delete_task taskDone 7 = .error Err.forbidden ∧
    Err.forbidden ≠ Err.businessRule "Cannot delete completed tasks" := by
  refine ⟨rfl, by decide, by decide, rfl, by decide⟩

/-- C7 (amended): deleting a task whose status is `done` always fails, for
every caller identity, and the task is never deleted; the error is the
BusinessRuleViolation for callers who pass authorization (creator or
project owner) and the plain Forbidden error for everyone else. -/
theorem C7_done_not_deletable (task : Task) (uid : Nat)
    (hdone : task.status = TaskStatus.done) :
    (∀ b, delete_task task uid ≠ .ok b) ∧
    (task.created_by = uid ∨ task.project_owner_id = uid →
      delete_task task uid =
        .error (Err.businessRule "Cannot delete completed tasks")) ∧
    (¬(task.created_by = uid ∨ task.project_owner_id = uid) →
      delete_task task uid = .error Err.forbidden) := by
  simp only [delete_task]
  by_cases hauth : task.created_by = uid ∨ task.project_owner_id = uid
  · rw [if_neg (not_not_intro hauth), if_pos hdone]
    exact ⟨fun b h => Except.noConfusion h, fun _ => rfl,
      fun hn => absurd hauth hn⟩
  · rw [if_pos hauth]
    exact ⟨fun b h => Except.noConfusion h, fun h => absurd h hauth,
      fun _ => rfl⟩

/-- C7 witness: the creator cannot delete the completed task. -/
theorem C7_done_not_deletable_witness :
    delete_task taskDone 2 =
      .error (Err.businessRule "Cannot delete completed tasks") :=
  (C7_done_not_deletable taskDone 2 rfl).2.1 (Or.inl rfl)

/-- C9: the general task-update path writes any requested status for the
task's creator when the payload sets only `status`: no transition table
and no completion/blocking/start side condition is consulted, for every
pair of old and new statuses. -/
theorem C9_update_task_bypasses_transitions (task : Task) (uid : Nat)
    (users : List UserRec) (s : TaskStatus)
    (hcreator : task.created_by = uid) :
    update_task task (statusOnlyUpdate s) uid users =
      .ok { task with status := s } := by
  simp [update_task, statusOnlyUpdate, TaskUpdate.keys, TaskUpdate.isSet,
    applyTaskUpdate, validate_status_transition, assignee_change_check,
    actual_hours_check, hcreator]

/-- C9 witness: `done → todo` — a transition absent from the edge table —
succeeds through the general update path. -/
theorem C9_update_task_bypasses_transitions_witness :
    taskDone.status = TaskStatus.done ∧
    TaskStatus.todo ∉ valid_transitions TaskStatus.done ∧
    update_task taskDone (statusOnlyUpdate TaskStatus.todo) 2 [] =
      .ok { taskDone with status := TaskStatus.todo } :=
  ⟨rfl, by decide,
    C9_update_task_bypasses_transitions taskDone 2 [] TaskStatus.todo rfl⟩

/-- C6: counterexample — a superuser who does not own the project is
rejected with Forbidden by project update, by project status change and
by project delete: the services never consult the superuser flag. -/
theorem C6_counterexample :
    superUser.is_superuser = true ∧
    superUser.id ≠ projX.owner_id ∧
    update_project projX emptyProjectUpdate superUser.id =
      .error Err.forbidden ∧
    update_project_status projX { status := .active, notes := none }
        superUser.id = .error Err.forbidden ∧
    delete_project projX superUser.id false = .error Err.forbidden := by
  refine ⟨rfl, by decide, rfl, rfl, rfl⟩

/-- C6 (amended): the project update, status-change and delete operations
pass the authorization check if and only if the principal's id equals the
project's `owner_id`; the superuser flag is not consulted, so a non-owner
superuser fails with Forbidden like any other non-owner, while an owner
never receives the Forbidden error. -/
theorem C6_owner_only (project : Project) (pu : ProjectUpdate)
    (psu : ProjectStatusUpdate) (uid : Nat) (force : Bool) :
    (update_project project pu uid = .error Err.forbidden ↔
      project.owner_id ≠ uid) ∧
    (update_project_status project psu uid = .error Err.forbidden ↔
      project.owner_id ≠ uid) ∧
    (delete_project project uid force = .error Err.forbidden ↔
      project.owner_id ≠ uid) := by
  refine ⟨⟨?_, ?_⟩, ⟨?_, ?_⟩, ⟨?_, ?_⟩⟩
  · intro he
    by_contra hc
    rw [update_project, if_neg (not_not_intro hc)] at he
    exact Except.noConfusion he
  · intro hne
    rw [update_project, if_pos hne]
  · intro he
    by_contra hc
    simp only [update_project_status] at he
    rw [if_neg (not_not_intro hc)] at he
    split_ifs at he <;> simp at he
  · intro hne
    rw [update_project_status, if_pos hne]
  · intro he
    by_contra hc
    rw [delete_project, if_neg (not_not_intro hc)] at he
    split_ifs at he <;> simp at he
  · intro hne
    rw [delete_project, if_pos hne]

/-- C3: for a caller who is the task's assignee but neither its creator
nor the project owner, the general update succeeds only if every set
field of the payload is in {status, actual_hours, description}; when any
other field is set the operation fails with the ForbiddenException whose
details list exactly the offending fields; and a payload whose set fields
all lie in the allowed set (with any supplied `actual_hours` value
non-negative) passes the field restriction and succeeds. -/
theorem C3_assignee_field_restriction (task : Task) (u : TaskUpdate)
    (uid : Nat) (users : List UserRec)
    (hassignee : task.assignee_id = some uid)
    (hnc : task.created_by ≠ uid)
    (hno : task.project_owner_id ≠ uid) :
    (succeedsT (update_task task u uid users) →
      ∀ f ∈ u.keys, f ∈ allowed_assignee_fields) ∧
    ((∃ f ∈ u.keys, f ∉ allowed_assignee_fields) →
      update_task task u uid users =
        .error (.forbiddenFields
          (u.keys.filter (fun f => f ∉ allowed_assignee_fields))) ∧
      (∀ f, f ∈ u.keys.filter (fun f => f ∉ allowed_assignee_fields) ↔
        f ∈ u.keys ∧ f ∉ allowed_assignee_fields)) ∧
    ((∀ f ∈ u.keys, f ∈ allowed_assignee_fields) →
      (∀ v, u.actual_hours = some (some v) → 0 ≤ v) →
      succeedsT (update_task task u uid users)) := by
  have h1 : ¬¬(task.created_by = uid ∨ task.assignee_id = some uid ∨
      task.project_owner_id = uid) :=
    not_not_intro (Or.inr (Or.inl hassignee))
  have hmid : ¬(task.created_by = uid ∨ task.project_owner_id = uid) := by
    rintro (h | h)
    · exact hnc h
    · exact hno h
  simp only [update_task]
  rw [if_neg h1]
  by_cases hff : u.keys.filter (fun f => f ∉ allowed_assignee_fields) = []
  · rw [if_neg (fun hcond => hcond.2.2 hff)]
    refine ⟨?_, ?_, ?_⟩
    · intro _ f hf
      have := List.filter_eq_nil.mp hff f hf
      simpa using this
    · rintro ⟨f, hf, hfa⟩
      have hmem : f ∈ u.keys.filter (fun f => f ∉ allowed_assignee_fields) :=
        List.mem_filter.mpr ⟨hf, by simpa using hfa⟩
      rw [hff] at hmem
      exact absurd hmem (List.not_mem_nil f)
    · intro hkeys hv
      have hassid : u.assignee_id = none := by
        cases hcase : u.assignee_id with
        | none => rfl
        | some w =>
          have hmem : TaskField.assignee_id ∈ u.keys := by
            simp [TaskUpdate.keys, TaskUpdate.isSet, List.mem_filter, hcase]
          have := hkeys _ hmem
          simp [allowed_assignee_fields] at this
      have hac : assignee_change_check u users = none :=
        assignee_change_check_unset u users hassid
      have hhc : actual_hours_check u = none := by
        rcases hah : u.actual_hours with _ | (_ | v)
        · exact actual_hours_check_unset u hah
        · exact actual_hours_check_null u hah
        · exact actual_hours_check_nonneg u v hah (hv v hah)
      rw [hac, hhc]
      by_cases hrec : TaskField.title ∈ u.keys ∨
          TaskField.description ∈ u.keys ∨
          TaskField.estimated_hours ∈ u.keys
      · rw [if_pos hrec]
        exact ⟨_, rfl⟩
      · rw [if_neg hrec]
        exact ⟨_, rfl⟩
  · rw [if_pos ⟨hassignee, hmid, hff⟩]
    refine ⟨?_, ?_, ?_⟩
    · rintro ⟨t, ht⟩
      exact Except.noConfusion ht
    · intro _
      refine ⟨rfl, ?_⟩
      intro f
      constructor
      · intro hf
        have := List.mem_filter.mp hf
        exact ⟨this.1, by simpa using this.2⟩
      · intro hf
        exact List.mem_filter.mpr ⟨hf.1, by simpa using hf.2⟩
    · intro hkeys _
      exfalso
      apply hff
      rw [List.filter_eq_nil]
      intro f hf
      simpa using hkeys f hf

/-- C3 witness: the assignee-only caller succeeds with a payload setting
only `status` and a non-negative `actual_hours`. -/
theorem C3_assignee_field_restriction_witness :
    succeedsT (update_task taskC
      { title := none, description := none,
        status := some (some TaskStatus.in_review), priority := none,
        assignee_id := none, estimated_hours := none,
        actual_hours := some (some 2), due_date := none } 5 []) := by
  refine (C3_assignee_field_restriction taskC
      { title := none, description := none,
        status := some (some TaskStatus.in_review), priority := none,
        assignee_id := none, estimated_hours := none,
        actual_hours := some (some 2), due_date := none } 5 []
      rfl (by decide) (by decide)).2.2 (by decide) ?_
  intro v hval
  injection hval with h
  injection h with h
  rw [← h]
  norm_num

/-- C8: counterexample — with no description, `estimated_hours = 0` is
falsy in Python and keeps the default base 5, while `estimated_hours = 1`
scores 2: the score is not monotonically non-decreasing on the whole
domain, and `0` does not fall into the claimed `≤2 → 2` bucket. -/
theorem C8_counterexample :
    (0 : ℚ) ≤ 1 ∧
    calculate_complexity_score "t" none (some 0) = 5 ∧
    calculate_complexity_score "t" none (some 1) = 2 ∧
    ¬(calculate_complexity_score "t" none (some 0) ≤
      calculate_complexity_score "t" none (some 1)) := by
  refine ⟨by norm_num, rfl, rfl, by decide⟩

/-- C8 (amended): with no description bonus the complexity score is
monotonically non-decreasing in `estimated_hours` over strictly positive
hours (an `estimated_hours` of `0` is falsy and keeps the base 5 instead
of the `≤2` bucket), takes the bucket values 1→2, 8→4, 24→6, 80→8,
200→10, and for every input the returned score lies in `[1, 10]`. -/
theorem C8_complexity_monotone (h h' : ℚ) (t : String) (d : Option String)
    (e : Option ℚ) (hpos : 0 < h) (hle : h ≤ h') :
    calculate_complexity_score t none (some h) ≤
      calculate_complexity_score t none (some h') ∧
    calculate_complexity_score t none (some 1) = 2 ∧
    calculate_complexity_score t none (some 8) = 4 ∧
    calculate_complexity_score t none (some 24) = 6 ∧
    calculate_complexity_score t none (some 80) = 8 ∧
    calculate_complexity_score t none (some 200) = 10 ∧
    1 ≤ calculate_complexity_score t d e ∧
    calculate_complexity_score t d e ≤ 10 := by
  have hpos' : 0 < h' := lt_of_lt_of_le hpos hle
  have hne : ¬(h = 0) := ne_of_gt hpos
  have hne' : ¬(h' = 0) := ne_of_gt hpos'
  refine ⟨?_, rfl, rfl, rfl, rfl, rfl, ?_, ?_⟩
  · simp only [calculate_complexity_score]
    rw [if_neg hne, if_neg hne']
    split_ifs <;> first | decide | (exfalso; linarith)
  · simp only [calculate_complexity_score]
    exact le_max_left _ _
  · simp only [calculate_complexity_score]
    exact max_le (by norm_num) (min_le_left _ _)

/-- C8 witness: the monotonicity applied across two positive bucket
representatives. -/
theorem C8_complexity_monotone_witness :
    calculate_complexity_score "t" none (some 1) ≤
      calculate_complexity_score "t" none (some 8) :=
  (C8_complexity_monotone 1 8 "t" none none (by norm_num) (by norm_num)).1

/-- Membership in the rows fetched by `get_by_ids`. -/
theorem mem_get_by_ids (db : List Task) (ids : List Nat) (t : Task) :
    t ∈ get_by_ids db ids ↔ t ∈ db ∧ t.id ∈ ids := by
  simp [get_by_ids, List.mem_filter]

/-- If some requested id has no row, the fetch is strictly shorter than
the id list (assuming distinct row ids), so the length guard fires. -/
theorem get_by_ids_length_ne (db : List Task) (ids : List Nat)
    (hnodup : (db.map Task.id).Nodup) (i : Nat) (hi : i ∈ ids)
    (hmiss : ∀ t ∈ db, t.id ≠ i) :
    (get_by_ids db ids).length ≠ ids.length := by
  have hsub : List.Sublist (get_by_ids db ids) db := List.filter_sublist db
  have hnd : ((get_by_ids db ids).map Task.id).Nodup :=
    List.Nodup.sublist (hsub.map Task.id) hnodup
  have hsubset : ∀ x ∈ (get_by_ids db ids).map Task.id,
      x ∈ ids ∧ x ≠ i := by
    intro x hx
    rcases List.mem_map.mp hx with ⟨t, ht, rfl⟩
    rcases (mem_get_by_ids db ids t).mp ht with ⟨htdb, htid⟩
    exact ⟨htid, hmiss t htdb⟩
  have h1 : ((get_by_ids db ids).map Task.id).toFinset ⊆
      ids.toFinset.erase i := by
    intro x hx
    rw [List.mem_toFinset] at hx
    rcases hsubset x hx with ⟨hx1, hx2⟩
    exact Finset.mem_erase.mpr ⟨hx2, List.mem_toFinset.mpr hx1⟩
  have h2 : ((get_by_ids db ids).map Task.id).toFinset.card ≤
      (ids.toFinset.erase i).card := Finset.card_le_card h1
  have h3 : ((get_by_ids db ids).map Task.id).toFinset.card =
      (get_by_ids db ids).length := by
    rw [List.toFinset_card_of_nodup hnd, List.length_map]
  have h4 : (ids.toFinset.erase i).card < ids.toFinset.card :=
    Finset.card_erase_lt_of_mem (List.mem_toFinset.mpr hi)
  have h5 : ids.toFinset.card ≤ ids.length := ids.toFinset_card_le
  omega

/-- C2: a bulk status update fails before any write — the returned store
is the input store — whenever some referenced id has no row or the caller
is unauthorized for some referenced task; in the NotFound case the error
details list exactly the missing ids, and in the Forbidden case exactly
the unauthorized task ids. -/
theorem C2_bulk_atomic (db : List Task) (task_ids : List Nat)
    (new_status : TaskStatus) (uid : Nat)
    (hnodup : (db.map Task.id).Nodup)
    (hfail : (∃ i ∈ task_ids, ∀ t ∈ db, t.id ≠ i) ∨
      (∃ t ∈ db, t.id ∈ task_ids ∧ is_bulk_authorized t uid = false)) :
    (bulk_update_status db task_ids new_status uid).1 = db ∧
    ((∃ l, (bulk_update_status db task_ids new_status uid).2 =
        some (Err.notFoundMissing l) ∧
        ∀ i, i ∈ l ↔ (i ∈ task_ids ∧ ∀ t ∈ db, t.id ≠ i)) ∨
     (∃ l, (bulk_update_status db task_ids new_status uid).2 =
        some (Err.forbiddenTasks l) ∧
        ∀ i, i ∈ l ↔ (∃ t ∈ db, t.id = i ∧ i ∈ task_ids ∧
          is_bulk_authorized t uid = false))) := by
  by_cases hlen : (get_by_ids db task_ids).length ≠ task_ids.length
  · have heq : bulk_update_status db task_ids new_status uid =
        (db, some (Err.notFoundMissing ((task_ids.filter (fun i =>
          ¬((get_by_ids db task_ids).map Task.id).contains i)).dedup))) := by
      simp only [bulk_update_status]
      rw [if_pos hlen]
    rw [heq]
    refine ⟨rfl, Or.inl ⟨_, rfl, ?_⟩⟩
    intro i
    rw [List.mem_dedup, List.mem_filter]
    constructor
    · rintro ⟨hid, hncont⟩
      refine ⟨hid, ?_⟩
      rintro t htdb rfl
      have hin : t.id ∈ (get_by_ids db task_ids).map Task.id :=
        List.mem_map_of_mem Task.id
          ((mem_get_by_ids db task_ids t).mpr ⟨htdb, hid⟩)
      simp [hin] at hncont
    · rintro ⟨hid, hnone⟩
      refine ⟨hid, ?_⟩
      simp only [decide_eq_true_eq]
      intro hcont
      rw [List.elem_iff] at hcont
      rcases List.mem_map.mp hcont with ⟨t, ht, htid⟩
      exact hnone t ((mem_get_by_ids db task_ids t).mp ht).1 htid
  · push_neg at hlen
    have hnomiss : ¬∃ i ∈ task_ids, ∀ t ∈ db, t.id ≠ i := by
      rintro ⟨i, hi, hm⟩
      exact get_by_ids_length_ne db task_ids hnodup i hi hm hlen
    rcases hfail with hmiss | hun
    · exact absurd hmiss hnomiss
    · obtain ⟨t, htdb, htid, htauth⟩ := hun
      have htasks : t ∈ get_by_ids db task_ids :=
        (mem_get_by_ids db task_ids t).mpr ⟨htdb, htid⟩
      have htmem : t.id ∈ ((get_by_ids db task_ids).filter
          (fun t => ¬is_bulk_authorized t uid)).map Task.id := by
        apply List.mem_map_of_mem
        rw [List.mem_filter]
        exact ⟨htasks, by simp [htauth]⟩
      have hne : ((get_by_ids db task_ids).filter
          (fun t => ¬is_bulk_authorized t uid)).map Task.id ≠ [] := by
        intro h0
        rw [h0] at htmem
        exact List.not_mem_nil _ htmem
      have heq : bulk_update_status db task_ids new_status uid =
          (db, some (Err.forbiddenTasks (((get_by_ids db task_ids).filter
            (fun t => ¬is_bulk_authorized t uid)).map Task.id))) := by
        simp only [bulk_update_status]
        rw [if_neg (not_not_intro hlen), if_pos hne]
      rw [heq]
      refine ⟨rfl, Or.inr ⟨_, rfl, ?_⟩⟩
      intro i
      constructor
      · intro hmem
        rcases List.mem_map.mp hmem with ⟨t', ht', rfl⟩
        rw [List.mem_filter] at ht'
        rcases (mem_get_by_ids db task_ids t').mp ht'.1 with
          ⟨ht'db, ht'id⟩
        exact ⟨t', ht'db, rfl, ht'id, by simpa using ht'.2⟩
      · rintro ⟨t', ht'db, rfl, ht'id, ht'auth⟩
        apply List.mem_map_of_mem
        rw [List.mem_filter]
        exact ⟨(mem_get_by_ids db task_ids t').mpr ⟨ht'db, ht'id⟩,
          by simp [ht'auth]⟩

/-- C2 witness: requesting ids `[1, 2]` against a store holding only task
`1` leaves the store unchanged. -/
theorem C2_bulk_atomic_witness :
    (bulk_update_status dbW [1, 2] TaskStatus.done 9).1 = dbW :=
  (C2_bulk_atomic dbW [1, 2] TaskStatus.done 9 (by decide)
    (Or.inl ⟨2, by decide, by decide⟩)).1

end PMAPI
